import Mathlib

/-
Verification of the core descriptor-passing open logic of node-zfile
(src/zfile.cc). The C file forks a worker that enters a zone, opens a
file there, and sends the resulting descriptor back over a socketpair;
the parent reaps the worker and decodes its exit status. We give a
shallow embedding: the outcomes of the OS calls (zone_enter, open,
sendmsg, recvmsg, fork, socketpair, the template setup, waitpid) are
inputs, and the control flow of zfile.cc is translated line by line.
-/

namespace ZFile

/- Mode constants from zfile.cc lines 35-37. -/
def MODE_R : Int := 0
def MODE_W : Int := 1
def MODE_A : Int := 2

/- Open-flag constants from illumos fcntl.h, as used by zfile.cc. -/
def O_RDONLY : Nat := 0
def O_WRONLY : Nat := 1
def O_RDWR : Nat := 2
def O_ACCMODE : Nat := 3
def O_APPEND : Nat := 8
def O_CREAT : Nat := 256
def O_TRUNC : Nat := 512

/- errno values from illumos errno.h. -/
def EINVAL : Nat := 22
def ECHILD : Nat := 10

/- Socket-level constants from illumos socket.h. -/
def SOL_SOCKET : Nat := 65535
def SCM_RIGHTS : Nat := 4112

/- CMSG LEN(sizeof int): the control-message length the receiver expects
(zfile.cc line 278). Its exact numeric value is irrelevant to the logic;
only equality with it is ever tested. -/
def CMSG_LEN_INT : Nat := 16

/-- POSIX access mode of an open-flags word: flags AND O_ACCMODE. -/
def accessMode (flags : Nat) : Nat := flags &&& O_ACCMODE

/-- A descriptor opened with these flags accepts writes iff the access mode
is O_WRONLY or O_RDWR. -/
def writable (flags : Nat) : Bool :=
  accessMode flags == O_WRONLY || accessMode flags == O_RDWR

/-- The switch on mode in the child, zfile.cc lines 388-401: the open-flags
word for each recognized mode, none for the default (exit 6) branch. -/
def modeToFlags (mode : Int) : Option Nat :=
  if mode = MODE_R then some O_RDONLY
  else if mode = MODE_W then some (O_WRONLY ||| O_CREAT ||| O_TRUNC)
  else if mode = MODE_A then some (O_APPEND ||| O_CREAT)
  else none

/- ---------------- read_fd (zfile.cc lines 253-292) ---------------- -/

/-- A control-message header as seen by the receiver: cmsg_len, cmsg_level,
cmsg_type and the carried descriptor (CMSG_DATA). -/
structure CMsg where
  len : Nat
  level : Nat
  type : Nat
  fd : Int
deriving DecidableEq

/-- Outcome of the recvmsg call inside read_fd. `fail e` is a return of -1
with errno e; `eof` a return of 0; `data n hdr` a return of n > 0 bytes
together with the first control-message header, if any (the control buffer
has room for exactly one). -/
inductive RecvOutcome where
  | fail (e : Nat)
  | eof
  | data (n : Nat) (hdr : Option CMsg)
deriving DecidableEq

/-- Result of read_fd: the ssize_t return value, the value left in *recvfd,
and the errno read_fd itself set (none when it left errno to recvmsg). -/
structure ReadFdResult where
  ret : Int
  recvfd : Int
  errnoSet : Option Nat
deriving DecidableEq

/-- read_fd, zfile.cc lines 253-292. `recvfd0` is the value stored at
*recvfd before the call; the source leaves it untouched when recvmsg
returns <= 0. -/
def read_fd (recv : RecvOutcome) (recvfd0 : Int) : ReadFdResult :=
  match recv with
  | .fail _ => ⟨-1, recvfd0, none⟩
  | .eof => ⟨0, recvfd0, none⟩
  | .data n hdr =>
    match hdr with
    | some c =>
      if c.len = CMSG_LEN_INT then
        if c.level ≠ SOL_SOCKET ∨ c.type ≠ SCM_RIGHTS then
          ⟨-1, -1, some EINVAL⟩
        else
          ⟨(n : Int), c.fd, none⟩
      else
        ⟨(n : Int), -1, none⟩
    | none => ⟨(n : Int), -1, none⟩

/- ---------------- the forked child (zfile.cc lines 372-415) ---------------- -/

/-- Outcomes of the OS calls the child makes: zone_enter's return value and
the errno it leaves, the return of open(2) inside the zone, and the return
of sendmsg inside write_fd. -/
structure ChildEnv where
  zoneEnterRet : Int
  zoneEnterErrno : Nat
  openRet : Int
  writeFdRet : Int
deriving DecidableEq

/-- What the child did before _exit: its exit code, whether it reached the
open(2) call, the flags it opened with, and the descriptor it sent over the
socketpair (none when it exited before a successful write_fd). -/
structure ChildResult where
  exitCode : Nat
  openAttempted : Bool
  openFlags : Option Nat
  sentFd : Option Int
deriving DecidableEq

/-- The child branch of zfile, zfile.cc lines 372-415: zone_enter first
(exit 0 when it fails with EINVAL, else exit 1), then the mode switch
(default: exit 6), then open (failure: exit 2), then write_fd (failure:
exit 4), then exit 0. -/
def child (env : ChildEnv) (mode : Int) : ChildResult :=
  if env.zoneEnterRet ≠ 0 then
    if env.zoneEnterErrno = EINVAL then ⟨0, false, none, none⟩
    else ⟨1, false, none, none⟩
  else
    match modeToFlags mode with
    | none => ⟨6, false, none, none⟩
    | some flags =>
      if env.openRet < 0 then ⟨2, true, some flags, none⟩
      else if env.writeFdRet < 0 then ⟨4, true, some flags, none⟩
      else ⟨0, true, some flags, some env.openRet⟩

/- ---------------- zfile, parent side (zfile.cc lines 324-456) ---------------- -/

/-- The observable steps zfile takes, recorded in order: taking the global
lock, opening and configuring the contract template (init_template),
creating the socketpair, forking, waiting for the child, reading the
descriptor channel, releasing the lock. -/
inductive Action where
  | lock
  | initTemplate
  | socketpair
  | fork
  | waitChild
  | readChannel
  | unlock
deriving DecidableEq

/-- Outcomes of the OS calls the parent makes, plus the child's own
environment. `errno0` is the thread errno on entry (zfile's early-return
paths leave it untouched). `childExited` is whether WIFEXITED(stat) was
nonzero after the reap. -/
structure SysEnv where
  errno0 : Nat
  initTemplateOk : Bool
  initTemplateErrno : Nat
  socketpairOk : Bool
  socketpairErrno : Nat
  forkOk : Bool
  forkErrno : Nat
  childEnv : ChildEnv
  childExited : Bool
deriving DecidableEq

/-- What zfile returns: the int return value (the file descriptor when
non-negative), the thread errno after the call, and the trace of steps it
performed. -/
structure ZRes where
  fd : Int
  errno : Nat
  trace : List Action
deriving DecidableEq

/-- What the parent's recvmsg observes on the socketpair when it reads:
if the child sent a descriptor via write_fd, one data byte with a
well-formed SCM_RIGHTS control message carrying it; if the child exited
without sending, end of stream (the child's endpoint is closed). -/
def channelRecv (ch : ChildResult) : RecvOutcome :=
  match ch.sentFd with
  | some f => .data 1 (some ⟨CMSG_LEN_INT, SOL_SOCKET, SCM_RIGHTS, f⟩)
  | none => .eof

/-- zfile, zfile.cc lines 324-456, parent view. Early argument checks
return -1 before any step; setup failures (init_template, socketpair,
fork) return -1 with the failing call's errno; after a successful fork the
child's exit status is decoded: abnormal termination yields ECHILD, a
nonzero exit status becomes the errno with no channel read, and only
status 0 reads the channel, where file_fd keeps its initial value 0 when
recvmsg returns no descriptor (source line 331 initializes file_fd to 0
and line 435 ignores read_fd's return value). The final fixup (lines
444-453) sets errno to the recorded error when fd is negative and to 0
otherwise; on the status-0 path the recorded error is still 0. -/
def zfile (env : SysEnv) (zoneid : Int) (path : Option String) (mode : Int) : ZRes :=
  if zoneid < 0 then ⟨-1, env.errno0, []⟩
  else if path = none then ⟨-1, env.errno0, []⟩
  else if env.initTemplateOk = false then
    ⟨-1, env.initTemplateErrno, [.lock, .initTemplate, .unlock]⟩
  else if env.socketpairOk = false then
    ⟨-1, env.socketpairErrno, [.lock, .initTemplate, .socketpair, .unlock]⟩
  else if env.forkOk = false then
    ⟨-1, env.forkErrno, [.lock, .initTemplate, .socketpair, .fork, .unlock]⟩
  else
    let ch := child env.childEnv mode
    if env.childExited = false then
      ⟨-1, ECHILD, [.lock, .initTemplate, .socketpair, .fork, .waitChild, .unlock]⟩
    else if ch.exitCode = 0 then
      let fd := (read_fd (channelRecv ch) 0).recvfd
      ⟨fd, 0, [.lock, .initTemplate, .socketpair, .fork, .waitChild, .readChannel, .unlock]⟩
    else
      ⟨-1, ch.exitCode, [.lock, .initTemplate, .socketpair, .fork, .waitChild, .unlock]⟩

/- ---------------- uv_ZFile (zfile.cc lines 459-481) ---------------- -/

/-- Result of uv_ZFile as recorded in the baton: either setErrno's
syscall-name string with an errno, or a descriptor. -/
inductive UvOutcome where
  | failure (op : String) (errno : Nat)
  | success (fd : Int)
deriving DecidableEq

/-- The do-while retry loop of uv_ZFile, lines 468-472: attempts starts at
1, the body calls zfile, and the loop repeats while attempts++ < 3 and the
result was negative. `f a` is the result of the zfile call made on attempt
a. Returns (final fd, errno after the last call, number of calls made). -/
def uvLoopAux (f : Nat → ZRes) (attempts : Nat) : Int × Nat × Nat :=
  if h : attempts < 3 ∧ (f attempts).fd < 0 then
    ((uvLoopAux f (attempts + 1)).1, (uvLoopAux f (attempts + 1)).2.1,
      (uvLoopAux f (attempts + 1)).2.2 + 1)
  else
    ((f attempts).fd, (f attempts).errno, 1)
termination_by 3 - attempts
decreasing_by omega

/-- The retry loop entered with attempts = 1. -/
def uvLoop (f : Nat → ZRes) : Int × Nat × Nat := uvLoopAux f 1

/-- uv_ZFile, zfile.cc lines 459-481: resolve the zone name (a negative id
fails with syscall name "getzoneidbyname" and the resolver's errno), run
the retry loop, and report a still-negative result with syscall name
"zfile" and the errno of the last attempt, else the descriptor. -/
def uv_ZFile (zoneid : Int) (getzErrno : Nat) (f : Nat → ZRes) : UvOutcome :=
  if zoneid < 0 then .failure "getzoneidbyname" getzErrno
  else
    let r := uvLoop f
    if r.1 < 0 then .failure "zfile" r.2.1
    else .success r.1

/-- The sub-operation of zfile that failed first on a setup-failure run,
named after the source function: init_template, socketpair or fork. -/
def failingSetupOp (env : SysEnv) : Option String :=
  if env.initTemplateOk = false then some "init_template"
  else if env.socketpairOk = false then some "socketpair"
  else if env.forkOk = false then some "fork"
  else none

/- ---------------- helper lemmas ---------------- -/

theorem uvLoopAux_step (f : Nat → ZRes) (a : Nat) :
    uvLoopAux f a =
      if a < 3 ∧ (f a).fd < 0 then
        ((uvLoopAux f (a + 1)).1, (uvLoopAux f (a + 1)).2.1,
          (uvLoopAux f (a + 1)).2.2 + 1)
      else ((f a).fd, (f a).errno, 1) := by
  rw [uvLoopAux]
  by_cases h : a < 3 ∧ (f a).fd < 0
  · rw [dif_pos h, if_pos h]
  · rw [dif_neg h, if_neg h]

theorem uvLoop_eq (f : Nat → ZRes) :
    uvLoop f =
      if (f 1).fd < 0 then
        if (f 2).fd < 0 then ((f 3).fd, (f 3).errno, 3)
        else ((f 2).fd, (f 2).errno, 2)
      else ((f 1).fd, (f 1).errno, 1) := by
  unfold uvLoop
  rw [uvLoopAux_step, uvLoopAux_step, uvLoopAux_step]
  by_cases h1 : (f 1).fd < 0 <;> by_cases h2 : (f 2).fd < 0 <;> simp [h1, h2]

/- ---------------- claims ---------------- -/

/-- Claim C1, counterexample: the claim says every zone_enter failure makes
the worker exit 1 regardless of errno, but when zone_enter fails with
errno EINVAL the child exits 0 (zfile.cc lines 380-382). -/
theorem c1_cex_einval_entry_failure_exits_zero :
    (⟨-1, 22, 0, 0⟩ : ChildEnv).zoneEnterRet ≠ 0 ∧
    (child ⟨-1, 22, 0, 0⟩ MODE_R).exitCode = 0 ∧
    (child ⟨-1, 22, 0, 0⟩ MODE_R).exitCode ≠ 1 := by decide

/-- Claim C1, amended: on zone_enter failure the worker exits 1, except
when the failure errno is EINVAL, in which case it exits 0. -/
theorem c1_entry_failure_exit_code (env : ChildEnv) (mode : Int)
    (h : env.zoneEnterRet ≠ 0) :
    (child env mode).exitCode = if env.zoneEnterErrno = EINVAL then 0 else 1 := by
  unfold child
  rw [if_pos h]
  by_cases he : env.zoneEnterErrno = EINVAL <;> simp [he]

/-- Witness for claim C1's amended theorem at a concrete failing entry. -/
theorem c1_entry_failure_exit_code_witness :
    (child ⟨-1, 5, 0, 0⟩ MODE_R).exitCode = if (5 : Nat) = EINVAL then 0 else 1 :=
  c1_entry_failure_exit_code ⟨-1, 5, 0, 0⟩ MODE_R (by decide)

/-- Claim C2, code-bug evaluation: with a valid zone id and path, when
zone_enter fails with errno EINVAL the child exits 0 without ever opening
or sending a descriptor, yet zfile returns the non-negative value 0 (the
never-overwritten initial file_fd of line 331) with errno 0 — a success
result with no received descriptor. -/
theorem c2_bug_phantom_descriptor :
    zfile ⟨0, true, 0, true, 0, true, 0, ⟨-1, 22, 0, 0⟩, true⟩ 1 (some "/a") MODE_R =
      ⟨0, 0, [.lock, .initTemplate, .socketpair, .fork, .waitChild, .readChannel, .unlock]⟩ ∧
    (child ⟨-1, 22, 0, 0⟩ MODE_R).sentFd = none ∧
    (child ⟨-1, 22, 0, 0⟩ MODE_R).openAttempted = false := by decide

/-- Claim C3, code-bug evaluation: the Append branch maps to
O_APPEND|O_CREAT (zfile.cc line 396), which omits O_WRONLY: its access
mode is O_RDONLY, so the descriptor is not open for writing. Creation is
requested (O_CREAT set) and truncation is not (O_TRUNC clear). -/
theorem c3_append_flags_read_only :
    modeToFlags MODE_A = some (O_APPEND ||| O_CREAT) ∧
    accessMode (O_APPEND ||| O_CREAT) = O_RDONLY ∧
    writable (O_APPEND ||| O_CREAT) = false ∧
    (O_APPEND ||| O_CREAT) &&& O_CREAT ≠ 0 ∧
    (O_APPEND ||| O_CREAT) &&& O_TRUNC = 0 := by decide

/-- Claim C4: the mode-to-flags mapping is exactly Read to O_RDONLY, Write
to O_WRONLY|O_CREAT|O_TRUNC, Append to O_APPEND|O_CREAT, and (after a
successful zone entry) any other mode value exits 6 without reaching the
open call. -/
theorem c4_mode_flag_mapping (env : ChildEnv) (mode : Int)
    (hz : env.zoneEnterRet = 0)
    (hm : mode ≠ MODE_R ∧ mode ≠ MODE_W ∧ mode ≠ MODE_A) :
    modeToFlags MODE_R = some O_RDONLY ∧
    modeToFlags MODE_W = some (O_WRONLY ||| O_CREAT ||| O_TRUNC) ∧
    modeToFlags MODE_A = some (O_APPEND ||| O_CREAT) ∧
    (child env mode).exitCode = 6 ∧
    (child env mode).openAttempted = false := by
  have hflags : modeToFlags mode = none := by
    unfold modeToFlags
    rw [if_neg hm.1, if_neg hm.2.1, if_neg hm.2.2]
  refine ⟨by decide, by decide, by decide, ?_, ?_⟩ <;>
    simp [child, hz, hflags]

/-- Witness for claim C4 at mode 3 with a successful zone entry. -/
theorem c4_mode_flag_mapping_witness :
    modeToFlags MODE_R = some O_RDONLY ∧
    modeToFlags MODE_W = some (O_WRONLY ||| O_CREAT ||| O_TRUNC) ∧
    modeToFlags MODE_A = some (O_APPEND ||| O_CREAT) ∧
    (child ⟨0, 0, 5, 1⟩ 3).exitCode = 6 ∧
    (child ⟨0, 0, 5, 1⟩ 3).openAttempted = false :=
  c4_mode_flag_mapping ⟨0, 0, 5, 1⟩ 3 (by decide) (by decide)

/-- Claim C5: once setup succeeded and the child is reaped, the parent
decodes the outcome exactly as: abnormal termination yields the fixed
ECHILD error with no descriptor and no channel read; a nonzero exit status
becomes the error code, with no descriptor and no channel read; only exit
status 0 makes the parent read the descriptor channel. -/
theorem c5_parent_decode (env : SysEnv) (zoneid : Int) (p : String) (mode : Int)
    (hz : 0 ≤ zoneid) (h1 : env.initTemplateOk = true)
    (h2 : env.socketpairOk = true) (h3 : env.forkOk = true) :
    (env.childExited = false →
      (zfile env zoneid (some p) mode).fd = -1 ∧
      (zfile env zoneid (some p) mode).errno = ECHILD ∧
      Action.readChannel ∉ (zfile env zoneid (some p) mode).trace) ∧
    (env.childExited = true → (child env.childEnv mode).exitCode ≠ 0 →
      (zfile env zoneid (some p) mode).fd = -1 ∧
      (zfile env zoneid (some p) mode).errno = (child env.childEnv mode).exitCode ∧
      Action.readChannel ∉ (zfile env zoneid (some p) mode).trace) ∧
    (env.childExited = true → (child env.childEnv mode).exitCode = 0 →
      Action.readChannel ∈ (zfile env zoneid (some p) mode).trace) := by
  have hz' : ¬ zoneid < 0 := not_lt.mpr hz
  by_cases hc : env.childExited = true
  · by_cases he : (child env.childEnv mode).exitCode = 0 <;>
      simp [zfile, hz', h1, h2, h3, hc, he]
  · have hc' : env.childExited = false := by
      cases h : env.childExited
      · rfl
      · exact absurd h hc
    simp [zfile, hz', h1, h2, h3, hc']

/-- Witness for claim C5 with a child that did not terminate normally. -/
theorem c5_parent_decode_witness :
    (zfile ⟨0, true, 0, true, 0, true, 0, ⟨0, 0, 3, 1⟩, false⟩ 0 (some "a") 0).fd = -1 ∧
    (zfile ⟨0, true, 0, true, 0, true, 0, ⟨0, 0, 3, 1⟩, false⟩ 0 (some "a") 0).errno = ECHILD := by
  have h := c5_parent_decode ⟨0, true, 0, true, 0, true, 0, ⟨0, 0, 3, 1⟩, false⟩ 0 "a" 0
    (by decide) (by decide) (by decide) (by decide)
  exact ⟨(h.1 rfl).1, (h.1 rfl).2.1⟩

/-- Claim C6: the retry loop in uv_ZFile calls zfile at least once and at
most 3 times, stops on the first non-negative result, retries any negative
result uniformly (only the sign of the result is inspected), and the final
value is that of the last call made. -/
theorem c6_retry_policy (f : Nat → ZRes) :
    (1 ≤ (uvLoop f).2.2 ∧ (uvLoop f).2.2 ≤ 3) ∧
    (uvLoop f).1 = (f (uvLoop f).2.2).fd ∧
    (0 ≤ (f 1).fd → (uvLoop f).2.2 = 1) ∧
    ((f 1).fd < 0 → 0 ≤ (f 2).fd → (uvLoop f).2.2 = 2) ∧
    ((f 1).fd < 0 → (f 2).fd < 0 → (uvLoop f).2.2 = 3) ∧
    (∀ k, 1 ≤ k → k < (uvLoop f).2.2 → (f k).fd < 0) := by
  rw [uvLoop_eq]
  by_cases h1 : (f 1).fd < 0 <;> by_cases h2 : (f 2).fd < 0 <;>
    simp [h1, h2] <;> intro k hk1 hk2 <;>
    first
      | omega
      | (interval_cases k <;> assumption)

/-- Witness for claim C6: an invalid-mode request (an application-level
failure, exit code 6) is retried the full 3 attempts. -/
theorem c6_retry_policy_witness :
    (uvLoop (fun _ => zfile ⟨0, true, 0, true, 0, true, 0, ⟨0, 0, 3, 1⟩, true⟩ 1 (some "p") 9)).2.2 = 3 :=
  (c6_retry_policy _).2.2.2.2.1 (by decide) (by decide)

/-- Claim C7, counterexample: a control-message header that is present but
malformed in its length (cmsg_len differs from CMSG_LEN(sizeof(int))) does
not produce the invalid-argument failure the claim requires: read_fd
returns the byte count with no error and merely marks the descriptor
absent (the header-check on zfile.cc line 278 routes it to the else branch
of line 287). -/
theorem c7_cex_bad_length_header_not_einval :
    read_fd (.data 1 (some ⟨CMSG_LEN_INT + 1, SOL_SOCKET, SCM_RIGHTS, 5⟩)) 0 =
      ⟨1, -1, none⟩ ∧
    ¬ ((read_fd (.data 1 (some ⟨CMSG_LEN_INT + 1, SOL_SOCKET, SCM_RIGHTS, 5⟩)) 0).ret = -1 ∧
       (read_fd (.data 1 (some ⟨CMSG_LEN_INT + 1, SOL_SOCKET, SCM_RIGHTS, 5⟩)) 0).errnoSet =
         some EINVAL) := by decide

/-- Claim C7, amended: when data arrives, a header of the expected size but
wrong level or type fails with EINVAL and no descriptor; a header of
unexpected size, like no header at all, reports the descriptor absent
without an error; the descriptor is accepted exactly from a header of the
expected size, level and type. -/
theorem c7_channel_receive (n : Nat) (c : CMsg) (r0 : Int) :
    (c.len = CMSG_LEN_INT → (c.level ≠ SOL_SOCKET ∨ c.type ≠ SCM_RIGHTS) →
      read_fd (.data n (some c)) r0 = ⟨-1, -1, some EINVAL⟩) ∧
    (c.len ≠ CMSG_LEN_INT →
      read_fd (.data n (some c)) r0 = ⟨(n : Int), -1, none⟩) ∧
    read_fd (.data n none) r0 = ⟨(n : Int), -1, none⟩ ∧
    (c.len = CMSG_LEN_INT → c.level = SOL_SOCKET → c.type = SCM_RIGHTS →
      read_fd (.data n (some c)) r0 = ⟨(n : Int), c.fd, none⟩) := by
  refine ⟨?_, ?_, rfl, ?_⟩
  · intro hl hm
    simp only [read_fd]
    rw [if_pos hl, if_pos hm]
  · intro hl
    simp only [read_fd]
    rw [if_neg hl]
  · intro hl hlev hty
    simp only [read_fd]
    rw [if_pos hl, if_neg]
    simp [hlev, hty]

/-- Witness for claim C7's amended theorem: a header of the expected size
but wrong level is rejected with EINVAL. -/
theorem c7_channel_receive_witness :
    read_fd (.data 1 (some ⟨CMSG_LEN_INT, 0, SCM_RIGHTS, 7⟩)) 0 = ⟨-1, -1, some EINVAL⟩ :=
  (c7_channel_receive 1 ⟨CMSG_LEN_INT, 0, SCM_RIGHTS, 7⟩ 0).1 (by decide) (by decide)

/-- Claim C8, counterexample: when the contract-template setup
(init_template) is the operation that failed, zfile collapses it to a bare
-1 return and uv_ZFile surfaces the error under the generic wrapper name
"zfile" (line 474), not the failing operation's own name. -/
theorem c8_cex_setup_error_name_collapsed :
    uv_ZFile 1 0
      (fun _ => zfile ⟨0, false, 5, true, 0, true, 0, ⟨0, 0, 3, 1⟩, true⟩ 1 (some "p") 0) =
      .failure "zfile" 5 ∧
    failingSetupOp ⟨0, false, 5, true, 0, true, 0, ⟨0, 0, 3, 1⟩, true⟩ = some "init_template" ∧
    "zfile" ≠ "init_template" := by
  have hz : zfile ⟨0, false, 5, true, 0, true, 0, ⟨0, 0, 3, 1⟩, true⟩ 1 (some "p") 0 =
      ⟨-1, 5, [.lock, .initTemplate, .unlock]⟩ := by decide
  refine ⟨?_, by decide, by decide⟩
  unfold uv_ZFile
  rw [uvLoop_eq]
  simp [hz]

/-- Claim C8, amended: every error result carries a syscall-name string,
but it is only ever "getzoneidbyname" (zone-name resolution failed) or the
generic "zfile" (some step inside the core open failed), together with the
errno left by the last attempt; the specific failing sub-operation's name
is not surfaced. -/
theorem c8_error_operation_names (zoneid : Int) (g : Nat) (f : Nat → ZRes) :
    (zoneid < 0 → uv_ZFile zoneid g f = .failure "getzoneidbyname" g) ∧
    (0 ≤ zoneid → (uvLoop f).1 < 0 →
      uv_ZFile zoneid g f = .failure "zfile" (uvLoop f).2.1) ∧
    (∀ s e, uv_ZFile zoneid g f = .failure s e →
      s = "getzoneidbyname" ∨ s = "zfile") := by
  unfold uv_ZFile
  by_cases hz : zoneid < 0
  · simp only [if_pos hz]
    refine ⟨fun _ => trivial, fun h => absurd hz (not_lt.mpr h), ?_⟩
    intro s e hs
    cases hs
    exact Or.inl rfl
  · simp only [if_neg hz]
    by_cases hf : (uvLoop f).1 < 0
    · simp only [if_pos hf]
      refine ⟨fun h => absurd h hz, fun _ _ => trivial, ?_⟩
      intro s e hs
      cases hs
      exact Or.inr rfl
    · simp only [if_neg hf]
      refine ⟨fun h => absurd h hz, fun _ h => absurd h hf, ?_⟩
      intro s e hs
      cases hs

/-- Witness for claim C8's amended theorem: zone resolution failure is
reported as "getzoneidbyname" with the resolver's errno. -/
theorem c8_error_operation_names_witness :
    uv_ZFile (-1) 3 (fun _ => ⟨0, 0, []⟩) = .failure "getzoneidbyname" 3 :=
  (c8_error_operation_names (-1) 3 (fun _ => ⟨0, 0, []⟩)).1 (by decide)

/-- Claim C9: a negative zone id or a null path makes zfile return -1
immediately, with an empty step trace: no lock acquisition, no template
open, no socketpair, no fork, and the entry errno untouched. -/
theorem c9_early_argument_checks (env : SysEnv) (zoneid : Int)
    (path : Option String) (mode : Int)
    (h : zoneid < 0 ∨ path = none) :
    zfile env zoneid path mode = ⟨-1, env.errno0, []⟩ := by
  unfold zfile
  rcases h with h | h
  · rw [if_pos h]
  · by_cases hz : zoneid < 0
    · rw [if_pos hz]
    · rw [if_neg hz, if_pos h]

/-- Witness for claim C9 at a concrete negative zone id. -/
theorem c9_early_argument_checks_witness :
    zfile ⟨7, true, 0, true, 0, true, 0, ⟨0, 0, 0, 0⟩, true⟩ (-2) (some "x") 0 =
      ⟨-1, 7, []⟩ :=
  c9_early_argument_checks ⟨7, true, 0, true, 0, true, 0, ⟨0, 0, 0, 0⟩, true⟩ (-2)
    (some "x") 0 (Or.inl (by decide))

/-- Claim C10: the child attempts zone entry before validating the mode:
when entry fails, the child's behavior is independent of the mode, its
exit code is never 6, and it never reaches the open call; conversely exit
code 6 implies the zone entry succeeded. -/
theorem c10_entry_precedes_mode_validation (env : ChildEnv) (mode m2 : Int) :
    (env.zoneEnterRet ≠ 0 →
      child env mode = child env m2 ∧
      (child env mode).exitCode ≠ 6 ∧
      (child env mode).openAttempted = false) ∧
    ((child env mode).exitCode = 6 → env.zoneEnterRet = 0) := by
  constructor
  · intro hz
    unfold child
    simp only [if_pos hz]
    by_cases he : env.zoneEnterErrno = EINVAL <;> simp [he]
  · intro h6
    by_contra hz
    unfold child at h6
    rw [if_pos hz] at h6
    by_cases he : env.zoneEnterErrno = EINVAL
    · rw [if_pos he] at h6
      exact absurd h6 (by decide)
    · rw [if_neg he] at h6
      exact absurd h6 (by decide)

/-- Witness for claim C10: with a failed entry, an invalid mode behaves
exactly like mode Read. -/
theorem c10_entry_precedes_mode_validation_witness :
    child ⟨-1, 5, 0, 0⟩ 9 = child ⟨-1, 5, 0, 0⟩ MODE_R :=
  ((c10_entry_precedes_mode_validation ⟨-1, 5, 0, 0⟩ 9 MODE_R).1 (by decide)).1

end ZFile
